import Mathlib

/-!
Verification development for the admin dashboard/statistics backend
(`src/controllers/adminStatsController.js`, `src/controllers/dashboardController.js`,
`src/routes/adminStatsRoute.js`).

The controllers are read-only views over four document collections
(Product, Engineer, Shop, Ads).  We embed the database state as lists of
records, `countDocuments` as `List.countP`, the Mongo `find().sort().skip().limit()`
chain as a stable sort followed by `drop`/`take`, and the `$group`/`$project`/`$sort`
aggregation pipeline as grouping in first-appearance order followed by a stable
sort.  JavaScript number arithmetic on rates (`x.toFixed(1)` then `parseFloat`)
is embedded over ℚ with explicit round-half-up to one decimal, which matches
`toFixed` ("if there are two such n, pick the larger n") for the non-negative
values that arise here.
-/

namespace QafzhAdmin

/-- Product `status` enum: pending | approved | rejected. -/
inductive PStatus where
  | pending
  | approved
  | rejected
deriving DecidableEq, Repr

/-- A Product document, restricted to the fields the controllers read:
`status`, `type`, `governorate` and the `createdAt` sort key. -/
structure Product where
  status : PStatus
  type : String
  governorate : String
  createdAt : Int
deriving DecidableEq, Repr

/-- An Engineer document (fields read: `isVerified`, `isActive`, `createdAt`). -/
structure Engineer where
  isVerified : Bool
  isActive : Bool
  createdAt : Int
deriving DecidableEq, Repr

/-- A Shop document (fields read: `isVerified`, `isActive`, `createdAt`). -/
structure Shop where
  isVerified : Bool
  isActive : Bool
  createdAt : Int
deriving DecidableEq, Repr

/-- An Ads document (fields read: `active`, `createdAt`). -/
structure Ad where
  active : Bool
  createdAt : Int
deriving DecidableEq, Repr

/-- The database state visible to the controllers. -/
structure Db where
  products : List Product
  engineers : List Engineer
  shops : List Shop
  ads : List Ad
deriving Repr

/-! ## Scalar counts (`Model.countDocuments(filter)`) -/

/-- `Product.countDocuments({status: "pending"})`. -/
def pendingApprovalsCount (db : Db) : Nat :=
  db.products.countP (fun p => p.status == PStatus.pending)

/-- `Engineer.countDocuments()` (no filter). -/
def totalEngineersCount (db : Db) : Nat := db.engineers.length

/-- `Shop.countDocuments({isVerified: true, isActive: true})`. -/
def verifiedShopsCount (db : Db) : Nat :=
  db.shops.countP (fun s => s.isVerified && s.isActive)

/-- `Ads.countDocuments({active: true})`. -/
def activeAdsCount (db : Db) : Nat :=
  db.ads.countP (fun a => a.active)

/-- `Product.countDocuments()` (no filter). -/
def totalProductsCount (db : Db) : Nat := db.products.length

/-- `Product.countDocuments({status: "approved"})`. -/
def approvedProductsCount (db : Db) : Nat :=
  db.products.countP (fun p => p.status == PStatus.approved)

/-- `Product.countDocuments({status: "rejected"})`. -/
def rejectedProductsCount (db : Db) : Nat :=
  db.products.countP (fun p => p.status == PStatus.rejected)

/-! ## Rounding and rates -/

/-- `parseFloat(x.toFixed(1))` for a non-negative rate `x`: round to one
decimal, ties away from zero (ECMA `toFixed` picks the larger candidate). -/
def roundTo1 (x : ℚ) : ℚ := (⌊x * 10 + 1 / 2⌋ : ℚ) / 10

/-- The expression `(approvedProducts / totalProducts) * 100` computed inside
the `totalProducts > 0` branch at lines 58-61 of `adminStatsController.js`. -/
def approvalRateExact (db : Db) : ℚ :=
  (approvedProductsCount db : ℚ) / (totalProductsCount db : ℚ) * 100

/-- The expression `(rejectedProducts / totalProducts) * 100` (lines 62-65). -/
def rejectionRateExact (db : Db) : ℚ :=
  (rejectedProductsCount db : ℚ) / (totalProductsCount db : ℚ) * 100

/-- `approvalRate` as computed at lines 58-61 and consumed via
`parseFloat(approvalRate)`: the rounded rate if any product exists, else `0`. -/
def approvalRate (db : Db) : ℚ :=
  if 0 < totalProductsCount db then roundTo1 (approvalRateExact db) else 0

/-- `rejectionRate` as computed at lines 62-65. -/
def rejectionRate (db : Db) : ℚ :=
  if 0 < totalProductsCount db then roundTo1 (rejectionRateExact db) else 0

/-! ## Pagination -/

/-- `Math.ceil(totalItems / limit)` for natural `totalItems` and `limit ≥ 1`,
written with integer arithmetic; the theorem for claim C1 proves it equal to
the rational ceiling. -/
def mathCeilDiv (n m : Nat) : Nat := (n + m - 1) / m

/-- The `pagination` object of every list endpoint. -/
structure Pagination where
  currentPage : Nat
  totalPages : Nat
  totalItems : Nat
  itemsPerPage : Nat
deriving DecidableEq, Repr

/-- A list endpoint's `data` payload: documents plus the pagination object. -/
structure ListResp (α : Type) where
  items : List α
  pagination : Pagination
deriving Repr

/-- Query parameters shared by the four list endpoints
(`page`, `limit`, `sortBy`, `sortOrder`, with the controllers' defaults). -/
structure ListQuery where
  page : Nat := 1
  limit : Nat := 10
  sortBy : String := "createdAt"
  sortOrder : Int := -1
deriving DecidableEq, Repr

/-- The sort specification built by `const sort = {}; sort[sortBy] = parseInt(sortOrder)`:
the requested field name is installed as the sort key unconditionally. -/
structure SortSpec where
  field : String
  order : Int
deriving DecidableEq, Repr

/-- Lines 341-342 (and the analogous lines of the other three listers):
`sort[sortBy] = parseInt(sortOrder)`. -/
def listerSortSpec (sortBy : String) (sortOrder : Int) : SortSpec :=
  { field := sortBy, order := sortOrder }

/-- Mongo `.sort(spec)` over an embedded collection: stable sort by the key
the spec's field selects, ascending for a non-negative order, else descending. -/
def sortDocs (fieldKey : String → α → Int) (spec : SortSpec) (docs : List α) : List α :=
  if 0 ≤ spec.order then
    docs.insertionSort (fun a b => fieldKey spec.field a ≤ fieldKey spec.field b)
  else
    docs.insertionSort (fun a b => fieldKey spec.field b ≤ fieldKey spec.field a)

/-- Sort key of a Product document.  The embedding carries only the fields the
claims exercise; a field name it does not carry is modelled by the constant
key `0`, under which the stable sort preserves document order. -/
def productFieldKey (field : String) (p : Product) : Int :=
  if field = "createdAt" then p.createdAt else 0

/-- Sort key of an Engineer document (see `productFieldKey`). -/
def engineerFieldKey (field : String) (e : Engineer) : Int :=
  if field = "createdAt" then e.createdAt else 0

/-- Sort key of a Shop document (see `productFieldKey`). -/
def shopFieldKey (field : String) (s : Shop) : Int :=
  if field = "createdAt" then s.createdAt else 0

/-- Sort key of an Ads document (see `productFieldKey`). -/
def adFieldKey (field : String) (a : Ad) : Int :=
  if field = "createdAt" then a.createdAt else 0

/-! ## The four list endpoints (`data` payloads) -/

/-- The filter `{status: "pending"}` of `getPendingApprovals`. -/
def pendingFilter (p : Product) : Bool := p.status == PStatus.pending

/-- `Product.find({status: "pending"}).sort(sort)` — the filtered, sorted
sequence that `skip`/`limit` then slices. -/
def sortedPendingProducts (db : Db) (q : ListQuery) : List Product :=
  sortDocs productFieldKey (listerSortSpec q.sortBy q.sortOrder)
    (db.products.filter pendingFilter)

/-- `getPendingApprovals` success payload (lines 331-365):
`skip = (page-1)*limit`, slice of the sorted pending products, and the
pagination object with `totalPages = Math.ceil(totalPending / limit)`. -/
def pendingApprovalsData (db : Db) (q : ListQuery) : ListResp Product :=
  { items := ((sortedPendingProducts db q).drop ((q.page - 1) * q.limit)).take q.limit
    pagination :=
      { currentPage := q.page
        totalPages := mathCeilDiv (db.products.countP pendingFilter) q.limit
        totalItems := db.products.countP pendingFilter
        itemsPerPage := q.limit } }

/-- The query built at lines 390-393: `{}`, plus `isVerified: verified === "true"`
when the `verified` parameter is present. -/
def engineerQueryPred (verified : Option String) (e : Engineer) : Bool :=
  match verified with
  | none => true
  | some s => e.isVerified == (s == "true")

/-- `Engineer.find(query).sort(sort)` for `getEngineersList`. -/
def sortedEngineers (db : Db) (q : ListQuery) (verified : Option String) : List Engineer :=
  sortDocs engineerFieldKey (listerSortSpec q.sortBy q.sortOrder)
    (db.engineers.filter (engineerQueryPred verified))

/-- `getEngineersList` success payload (lines 376-416). -/
def engineersListData (db : Db) (q : ListQuery) (verified : Option String) :
    ListResp Engineer :=
  { items := ((sortedEngineers db q verified).drop ((q.page - 1) * q.limit)).take q.limit
    pagination :=
      { currentPage := q.page
        totalPages := mathCeilDiv (db.engineers.countP (engineerQueryPred verified)) q.limit
        totalItems := db.engineers.countP (engineerQueryPred verified)
        itemsPerPage := q.limit } }

/-- The query built at lines 441-444: `{isActive: true}` unconditionally, plus
`isVerified: verified === "true"` when the `verified` parameter is present. -/
def shopQueryPred (verified : Option String) (s : Shop) : Bool :=
  s.isActive && (match verified with
    | none => true
    | some v => s.isVerified == (v == "true"))

/-- `Shop.find(query).sort(sort)` for `getShopsList`. -/
def sortedShops (db : Db) (q : ListQuery) (verified : Option String) : List Shop :=
  sortDocs shopFieldKey (listerSortSpec q.sortBy q.sortOrder)
    (db.shops.filter (shopQueryPred verified))

/-- `getShopsList` success payload (lines 427-467). -/
def shopsListData (db : Db) (q : ListQuery) (verified : Option String) : ListResp Shop :=
  { items := ((sortedShops db q verified).drop ((q.page - 1) * q.limit)).take q.limit
    pagination :=
      { currentPage := q.page
        totalPages := mathCeilDiv (db.shops.countP (shopQueryPred verified)) q.limit
        totalItems := db.shops.countP (shopQueryPred verified)
        itemsPerPage := q.limit } }

/-- The query built at lines 492-495: `{}`, plus `active: active === "true"`
when the `active` parameter is present. -/
def adQueryPred (active : Option String) (a : Ad) : Bool :=
  match active with
  | none => true
  | some v => a.active == (v == "true")

/-- `Ads.find(query).sort(sort)` for `getAdsList`. -/
def sortedAds (db : Db) (q : ListQuery) (active : Option String) : List Ad :=
  sortDocs adFieldKey (listerSortSpec q.sortBy q.sortOrder)
    (db.ads.filter (adQueryPred active))

/-- `getAdsList` success payload (lines 478-517). -/
def adsListData (db : Db) (q : ListQuery) (active : Option String) : ListResp Ad :=
  { items := ((sortedAds db q active).drop ((q.page - 1) * q.limit)).take q.limit
    pagination :=
      { currentPage := q.page
        totalPages := mathCeilDiv (db.ads.countP (adQueryPred active)) q.limit
        totalItems := db.ads.countP (adQueryPred active)
        itemsPerPage := q.limit } }

/-! ## Category aggregation pipeline (lines 68-100 and 216-220) -/

/-- One row of the `$group`/`$project` category pipeline output. -/
structure CatRow where
  category : String
  count : Nat
  pending : Nat
  approved : Nat
  rejected : Nat
  approvalRate : ℚ
deriving DecidableEq, Repr

/-- The distinct `type` values of a product list, in first-appearance order
(the embedding's choice for Mongo's unspecified `$group` output order). -/
def productTypes (ps : List Product) : List String :=
  ps.foldl (fun acc p => if p.type ∈ acc then acc else acc ++ [p.type]) []

/-- The `$group`/`$project` row for one `type` value: per-status `$sum` counts
and `approvalRate = approved / max(count, 1) * 100` (lines 70-98). -/
def catRowFor (ps : List Product) (t : String) : CatRow :=
  let group := ps.filter (fun p => p.type == t)
  { category := t
    count := group.length
    pending := group.countP (fun p => p.status == PStatus.pending)
    approved := group.countP (fun p => p.status == PStatus.approved)
    rejected := group.countP (fun p => p.status == PStatus.rejected)
    approvalRate :=
      (group.countP (fun p => p.status == PStatus.approved) : ℚ)
        / (max group.length 1 : ℚ) * 100 }

/-- Comparator of the pipeline's `$sort: {count: -1}` stage. -/
def catCountGE (a b : CatRow) : Prop := b.count ≤ a.count

instance : DecidableRel catCountGE := fun a b => Nat.decLe b.count a.count

instance catCountGE_total : IsTotal CatRow catCountGE :=
  ⟨fun a b => Nat.le_total b.count a.count⟩

instance catCountGE_trans : IsTrans CatRow catCountGE :=
  ⟨fun _ _ _ hab hbc => le_trans hbc hab⟩

/-- `categoryStats`: the full pipeline `$group` → `$project` → `$sort {count: -1}`
(lines 68-100), with the sort embedded as a stable sort. -/
def categoryStats (ps : List Product) : List CatRow :=
  ((productTypes ps).map (catRowFor ps)).insertionSort catCountGE

/-- The category rows as exposed after the response shaping at line 218,
`parseFloat(cat.approvalRate.toFixed(1))`: each row's rate rounded to one
decimal. -/
def categoryBreakdown (ps : List Product) : List CatRow :=
  (categoryStats ps).map (fun r => { r with approvalRate := roundTo1 r.approvalRate })

/-! ## Dashboard cards and envelopes -/

/-- One decorated dashboard card (count plus presentation constants). -/
structure CountCard where
  count : Nat
  title : String
  subtitle : String
  icon : String
  color : String
deriving DecidableEq, Repr

/-- The four decorated cards, as built identically by `getDashboardCards`,
`getAdminDashboardStats` (its `dashboardCards` section) and
`getDashboardCounts`. -/
structure DashboardCards where
  pendingApprovals : CountCard
  totalEngineers : CountCard
  verifiedShops : CountCard
  activeAds : CountCard
deriving DecidableEq, Repr

/-- The cards payload: the four headline counts with their fixed decorations. -/
def dashboardCardsData (db : Db) : DashboardCards :=
  { pendingApprovals :=
      { count := pendingApprovalsCount db, title := "Pending Approvals"
        subtitle := "Products awaiting approval", icon := "file-cabinet", color := "orange" }
    totalEngineers :=
      { count := totalEngineersCount db, title := "Total Engineers"
        subtitle := "Engineers registered in the system", icon := "engineer", color := "blue" }
    verifiedShops :=
      { count := verifiedShopsCount db, title := "Verified Shops"
        subtitle := "Verified and certified shops", icon := "storefront", color := "green" }
    activeAds :=
      { count := activeAdsCount db, title := "Active Ads"
        subtitle := "Currently active advertisements", icon := "megaphone", color := "purple" } }

/-- The bare counts payload of `getSimpleCounts`. -/
structure SimpleCounts where
  pendingApprovals : Nat
  totalEngineers : Nat
  verifiedShops : Nat
  activeAds : Nat
deriving DecidableEq, Repr

/-- `getSimpleCounts` success payload. -/
def simpleCountsData (db : Db) : SimpleCounts :=
  { pendingApprovals := pendingApprovalsCount db
    totalEngineers := totalEngineersCount db
    verifiedShops := verifiedShopsCount db
    activeAds := activeAdsCount db }

/-- The computed part of the `getAdminDashboardStats` payload that the claims
concern: cards, overall rates, and the category pipeline output (raw and as
rounded at line 218).  The hardcoded placeholder sections (system health,
growth figures, quality scores) are constants and are not embedded. -/
structure DashboardStatsData where
  cards : DashboardCards
  approvalRate : ℚ
  rejectionRate : ℚ
  categories : List CatRow
  categoriesRounded : List CatRow
deriving Repr

/-- `getAdminDashboardStats` success payload. -/
def dashboardStatsData (db : Db) : DashboardStatsData :=
  { cards := dashboardCardsData db
    approvalRate := approvalRate db
    rejectionRate := rejectionRate db
    categories := categoryStats db.products
    categoriesRounded := categoryBreakdown db.products }

/-- The JSON envelope every endpoint responds with:
`{status, message, data?, error?}` at some HTTP status code. -/
structure Envelope (α : Type) where
  httpStatus : Nat
  status : String
  message : String
  data : Option α
  error : Option String
deriving Repr

/-- The `try`/`catch` shape shared by all eight handlers: a successful run of
the body produces a 200 success envelope around the payload; any exception is
caught at the outermost level and turned into a 500 error envelope carrying
the endpoint's fixed message and the exception's message, with no data. -/
def handle (r : Except String Db) (body : Db → α) (okMsg errMsg : String) : Envelope α :=
  match r with
  | Except.ok db =>
    { httpStatus := 200, status := "success", message := okMsg
      data := some (body db), error := none }
  | Except.error e =>
    { httpStatus := 500, status := "error", message := errMsg
      data := none, error := some e }

/-- `getAdminDashboardStats` (adminStatsController lines 7-272). -/
def getAdminDashboardStats (r : Except String Db) : Envelope DashboardStatsData :=
  handle r dashboardStatsData
    ("Dashboard statistics retrieved successfully") ("Error retrieving statistics")

/-- `getDashboardCards` (adminStatsController lines 274-329). -/
def getDashboardCards (r : Except String Db) : Envelope DashboardCards :=
  handle r dashboardCardsData
    ("Dashboard cards data retrieved successfully") ("Error retrieving dashboard cards data")

/-- `getPendingApprovals` (adminStatsController lines 331-374). -/
def getPendingApprovals (r : Except String Db) (q : ListQuery) : Envelope (ListResp Product) :=
  handle r (fun db => pendingApprovalsData db q)
    ("Pending approvals retrieved successfully") ("Error retrieving pending approvals")

/-- `getEngineersList` (adminStatsController lines 376-425). -/
def getEngineersList (r : Except String Db) (q : ListQuery) (verified : Option String) :
    Envelope (ListResp Engineer) :=
  handle r (fun db => engineersListData db q verified)
    ("Engineers list retrieved successfully") ("Error retrieving engineers list")

/-- `getShopsList` (adminStatsController lines 427-476). -/
def getShopsList (r : Except String Db) (q : ListQuery) (verified : Option String) :
    Envelope (ListResp Shop) :=
  handle r (fun db => shopsListData db q verified)
    ("Shops list retrieved successfully") ("Error retrieving shops list")

/-- `getAdsList` (adminStatsController lines 478-526). -/
def getAdsList (r : Except String Db) (q : ListQuery) (active : Option String) :
    Envelope (ListResp Ad) :=
  handle r (fun db => adsListData db q active)
    ("Ads list retrieved successfully") ("Error retrieving ads list")

/-- `getDashboardCounts` (dashboardController lines 7-62, public). -/
def getDashboardCounts (r : Except String Db) : Envelope DashboardCards :=
  handle r dashboardCardsData
    ("Dashboard counts retrieved successfully") ("Error retrieving dashboard counts")

/-- `getSimpleCounts` (dashboardController lines 65-95, public). -/
def getSimpleCounts (r : Except String Db) : Envelope SimpleCounts :=
  handle r simpleCountsData
    ("Counts retrieved successfully") ("Error retrieving counts")

/-! ## Documented sort whitelists (swagger enums in `adminStatsRoute.js`) -/

/-- Swagger `sortBy` enum of `/pending-approvals` (route file line 625). -/
def pendingSortWhitelist : List String := ["createdAt", "name", "price", "type"]

/-- Swagger `sortBy` enum of `/engineers` (route file line 705). -/
def engineersSortWhitelist : List String := ["createdAt", "name", "experience"]

/-- Swagger `sortBy` enum of `/shops` (route file line 790). -/
def shopsSortWhitelist : List String := ["createdAt", "name", "rating"]

/-- Swagger `sortBy` enum of `/ads` (route file line 870). -/
def adsSortWhitelist : List String := ["createdAt", "title"]

/-! ## Concrete states used by the scenario parts of the claims -/

/-- The empty database (no products, engineers, shops or ads). -/
def dbEmpty : Db := { products := [], engineers := [], shops := [], ads := [] }

/-- Fifteen pending products with `createdAt` 1..15, for the pagination
scenario `page=2, limit=10, totalItems=15`. -/
def db15 : Db :=
  { products := (List.range 15).map (fun i =>
      { status := PStatus.pending, type := "Panel", governorate := "Sanaa"
        createdAt := (i : Int) + 1 })
    engineers := [], shops := [], ads := [] }

/-- Sixteen products: one approved and fifteen rejected.  The rates round to
6.3 and 93.8, whose sum exceeds 100. -/
def db16 : Db :=
  { products :=
      { status := PStatus.approved, type := "Panel", governorate := "Sanaa", createdAt := 0 }
        :: List.replicate 15
          { status := PStatus.rejected, type := "Panel", governorate := "Sanaa", createdAt := 0 }
    engineers := [], shops := [], ads := [] }

/-- Two products, one approved and one rejected (no pending). -/
def dbAR : Db :=
  { products :=
      [ { status := PStatus.approved, type := "Panel", governorate := "Sanaa", createdAt := 0 },
        { status := PStatus.rejected, type := "Panel", governorate := "Sanaa", createdAt := 1 } ]
    engineers := [], shops := [], ads := [] }

/-- One verified, active engineer. -/
def dbE : Db :=
  { products := [], engineers := [{ isVerified := true, isActive := true, createdAt := 0 }]
    shops := [], ads := [] }

/-- One verified, active shop. -/
def dbS : Db :=
  { products := [], engineers := []
    shops := [{ isVerified := true, isActive := true, createdAt := 0 }], ads := [] }

/-- The three-product input of the category-breakdown scenario. -/
def scenarioProducts : List Product :=
  [ { status := PStatus.pending, type := "Panel", governorate := "Sanaa", createdAt := 0 },
    { status := PStatus.approved, type := "Panel", governorate := "Aden", createdAt := 1 },
    { status := PStatus.rejected, type := "Battery", governorate := "Sanaa", createdAt := 2 } ]

/-! ## Helper lemmas -/

/-- `mathCeilDiv` agrees with Mathlib's natural ceiling division. -/
lemma mathCeilDiv_eq_ceilDiv (n m : Nat) : mathCeilDiv n m = n ⌈/⌉ m := rfl

/-- For a positive divisor, `mathCeilDiv` is the rational ceiling `⌈n / m⌉`. -/
lemma mathCeilDiv_eq_ceil (n m : Nat) (hm : 1 ≤ m) :
    mathCeilDiv n m = ⌈(n : ℚ) / (m : ℚ)⌉₊ := by
  have hm0 : 0 < m := hm
  have hmQ : (0 : ℚ) < (m : ℚ) := by exact_mod_cast hm0
  rw [mathCeilDiv_eq_ceilDiv]
  apply le_antisymm
  · rw [ceilDiv_le_iff_le_smul hm0, smul_eq_mul]
    have h1 : ((n : ℚ) / (m : ℚ)) ≤ (⌈(n : ℚ) / (m : ℚ)⌉₊ : ℚ) := Nat.le_ceil _
    have h2 : (n : ℚ) ≤ (⌈(n : ℚ) / (m : ℚ)⌉₊ : ℚ) * (m : ℚ) := by
      rwa [div_le_iff₀ hmQ] at h1
    have h3 : n ≤ ⌈(n : ℚ) / (m : ℚ)⌉₊ * m := by exact_mod_cast h2
    rw [mul_comm] at h3
    exact h3
  · apply Nat.ceil_le.mpr
    rw [div_le_iff₀ hmQ]
    have h4 : n ≤ m * (n ⌈/⌉ m) := by
      have := le_smul_ceilDiv hm0 (b := n)
      simpa [smul_eq_mul] using this
    rw [mul_comm] at h4
    exact_mod_cast h4

/-- For a positive divisor, `mathCeilDiv n m` is zero exactly when `n` is. -/
lemma mathCeilDiv_eq_zero_iff (n m : Nat) (hm : 1 ≤ m) :
    mathCeilDiv n m = 0 ↔ n = 0 := by
  rw [mathCeilDiv_eq_ceilDiv]
  constructor
  · intro h
    have h2 := (ceilDiv_le_iff_le_smul hm (c := 0)).mp (le_of_eq h)
    simpa using h2
  · rintro rfl
    simp

/-- Rounding to one decimal with `toFixed` ties-up: closed form via the floor
characterization, used to evaluate concrete rates. -/
lemma roundTo1_eq (x : ℚ) (k : ℤ) (h1 : (k : ℚ) ≤ x * 10 + 1 / 2)
    (h2 : x * 10 + 1 / 2 < k + 1) : roundTo1 x = (k : ℚ) / 10 := by
  unfold roundTo1
  rw [Int.floor_eq_iff.mpr ⟨h1, h2⟩]

/-- Rounding to one decimal ties-up overshoots the argument by at most 1/20. -/
lemma roundTo1_le (x : ℚ) : roundTo1 x ≤ x + 1 / 20 := by
  unfold roundTo1
  have h := Int.floor_le (x * 10 + 1 / 2)
  have h10 : (0 : ℚ) < 10 := by norm_num
  calc ((⌊x * 10 + 1 / 2⌋ : ℤ) : ℚ) / 10 ≤ (x * 10 + 1 / 2) / 10 :=
        (div_le_div_iff_of_pos_right h10).mpr h
    _ = x + 1 / 20 := by ring

/-- Every product status is pending, approved or rejected, so the three
per-status counts partition the collection. -/
lemma statusPartition (ps : List Product) :
    ps.countP (fun p => p.status == PStatus.approved)
      + ps.countP (fun p => p.status == PStatus.rejected)
      + ps.countP (fun p => p.status == PStatus.pending) = ps.length := by
  induction ps with
  | nil => rfl
  | cons p t ih =>
    rcases hp : p.status <;>
      simp [List.countP_cons, hp] <;>
      omega

/-- A stable Mongo sort permutes the collection it sorts. -/
lemma sortDocs_perm {α : Type} (fieldKey : String → α → Int) (spec : SortSpec)
    (l : List α) : (sortDocs fieldKey spec l).Perm l := by
  unfold sortDocs
  split <;> exact List.perm_insertionSort _ _

/-- Any document in a filtered-sorted-skipped-limited slice satisfies the
filter. -/
lemma mem_slice_filter {α : Type} (fieldKey : String → α → Int) (spec : SortSpec)
    (p : α → Bool) (l : List α) (s n : Nat) (x : α)
    (hx : x ∈ ((sortDocs fieldKey spec (l.filter p)).drop s).take n) : p x = true := by
  have h1 : x ∈ sortDocs fieldKey spec (l.filter p) :=
    List.mem_of_mem_drop (List.mem_of_mem_take hx)
  have h2 : x ∈ l.filter p := (sortDocs_perm fieldKey spec _).mem_iff.mp h1
  exact (List.mem_filter.mp h2).2

/-- `countP` of the constantly-true predicate is the length. -/
lemma countP_true_eq_length {α : Type} (l : List α) :
    l.countP (fun _ => true) = l.length :=
  congrFun List.countP_true l

/-! ## Claims -/

/-- Claim C1: for every list endpoint (pending approvals, engineers, shops,
ads) and every database state, the response's pagination object satisfies
`totalPages = ⌈totalItems / itemsPerPage⌉` for every `itemsPerPage ≥ 1`, and
`totalPages = 0` exactly when `totalItems = 0`. -/
theorem C1_totalPages_is_ceiling (db : Db) (q : ListQuery)
    (verified active : Option String) (hl : 1 ≤ q.limit) :
    ((pendingApprovalsData db q).pagination.totalPages
        = ⌈((pendingApprovalsData db q).pagination.totalItems : ℚ)
            / ((pendingApprovalsData db q).pagination.itemsPerPage : ℚ)⌉₊
      ∧ ((pendingApprovalsData db q).pagination.totalPages = 0
          ↔ (pendingApprovalsData db q).pagination.totalItems = 0))
    ∧ ((engineersListData db q verified).pagination.totalPages
        = ⌈((engineersListData db q verified).pagination.totalItems : ℚ)
            / ((engineersListData db q verified).pagination.itemsPerPage : ℚ)⌉₊
      ∧ ((engineersListData db q verified).pagination.totalPages = 0
          ↔ (engineersListData db q verified).pagination.totalItems = 0))
    ∧ ((shopsListData db q verified).pagination.totalPages
        = ⌈((shopsListData db q verified).pagination.totalItems : ℚ)
            / ((shopsListData db q verified).pagination.itemsPerPage : ℚ)⌉₊
      ∧ ((shopsListData db q verified).pagination.totalPages = 0
          ↔ (shopsListData db q verified).pagination.totalItems = 0))
    ∧ ((adsListData db q active).pagination.totalPages
        = ⌈((adsListData db q active).pagination.totalItems : ℚ)
            / ((adsListData db q active).pagination.itemsPerPage : ℚ)⌉₊
      ∧ ((adsListData db q active).pagination.totalPages = 0
          ↔ (adsListData db q active).pagination.totalItems = 0)) :=
  ⟨⟨mathCeilDiv_eq_ceil _ _ hl, mathCeilDiv_eq_zero_iff _ _ hl⟩,
   ⟨mathCeilDiv_eq_ceil _ _ hl, mathCeilDiv_eq_zero_iff _ _ hl⟩,
   ⟨mathCeilDiv_eq_ceil _ _ hl, mathCeilDiv_eq_zero_iff _ _ hl⟩,
   ⟨mathCeilDiv_eq_ceil _ _ hl, mathCeilDiv_eq_zero_iff _ _ hl⟩⟩

/-- Witness for C1 at a concrete state and query. -/
theorem C1_totalPages_is_ceiling_witness :
    (pendingApprovalsData db15 { page := 2, limit := 10 }).pagination.totalPages
      = ⌈((pendingApprovalsData db15 { page := 2, limit := 10 }).pagination.totalItems : ℚ)
          / ((pendingApprovalsData db15 { page := 2, limit := 10 }).pagination.itemsPerPage : ℚ)⌉₊ :=
  (C1_totalPages_is_ceiling db15 { page := 2, limit := 10 } none none (by norm_num)).1.1

/-- Claim C2: the pending-approvals lister skips exactly `(page-1)*limit`
documents of the filtered, sorted sequence and returns at most `limit`
documents starting there; with `page=2`, `limit=10` and 15 pending products
it reports `totalPages = 2` and returns exactly items 11-15 of the sorted
sequence. -/
theorem C2_skip_and_slice (db : Db) (q : ListQuery)
    (hp : 1 ≤ q.page) (hl : 1 ≤ q.limit) :
    ((pendingApprovalsData db q).items.length ≤ q.limit
      ∧ (∀ i : Nat, i < q.limit →
          (pendingApprovalsData db q).items[i]?
            = (sortedPendingProducts db q)[(q.page - 1) * q.limit + i]?)
      ∧ (∀ i : Nat, q.limit ≤ i → (pendingApprovalsData db q).items[i]? = none))
    ∧ ((pendingApprovalsData db15 { page := 2, limit := 10 }).pagination.totalPages = 2
      ∧ (pendingApprovalsData db15 { page := 2, limit := 10 }).pagination.totalItems = 15
      ∧ (pendingApprovalsData db15 { page := 2, limit := 10 }).items.map (fun p => p.createdAt)
          = [5, 4, 3, 2, 1]) := by
  refine ⟨⟨?_, ?_, ?_⟩, by decide, by decide, by decide⟩
  · show (((sortedPendingProducts db q).drop ((q.page - 1) * q.limit)).take q.limit).length
        ≤ q.limit
    rw [List.length_take]
    exact min_le_left _ _
  · intro i hi
    show (((sortedPendingProducts db q).drop ((q.page - 1) * q.limit)).take q.limit)[i]? = _
    rw [List.getElem?_take, if_pos hi, List.getElem?_drop]
  · intro i hi
    show (((sortedPendingProducts db q).drop ((q.page - 1) * q.limit)).take q.limit)[i]? = none
    rw [List.getElem?_take, if_neg (by omega)]

/-- Witness for C2 at a concrete state and query. -/
theorem C2_skip_and_slice_witness :
    (pendingApprovalsData db15 { page := 2, limit := 10 }).items[0]?
      = (sortedPendingProducts db15 { page := 2, limit := 10 })[10]? :=
  (C2_skip_and_slice db15 { page := 2, limit := 10 }
    (by norm_num) (by norm_num)).1.2.1 0 (by norm_num)

/-- Claim C3: each dashboard-card count equals the `totalItems` the
corresponding list endpoint reports under the equivalent filter, on the same
database state: pending products, all engineers (`verified` absent),
verified-and-active shops (`verified=true`, on top of the lister's
`isActive: true` base), and active ads (`active=true`). -/
theorem C3_cards_match_lister_totals (db : Db) (q : ListQuery) :
    (dashboardCardsData db).pendingApprovals.count
        = (pendingApprovalsData db q).pagination.totalItems
    ∧ (dashboardCardsData db).totalEngineers.count
        = (engineersListData db q none).pagination.totalItems
    ∧ (dashboardCardsData db).verifiedShops.count
        = (shopsListData db q (some ("true"))).pagination.totalItems
    ∧ (dashboardCardsData db).activeAds.count
        = (adsListData db q (some ("true"))).pagination.totalItems := by
  refine ⟨rfl, ?_, ?_, ?_⟩
  · show db.engineers.length = db.engineers.countP (engineerQueryPred none)
    rw [List.countP_congr (q := fun _ => true) (fun x _ => by simp [engineerQueryPred]),
      countP_true_eq_length]
  · show db.shops.countP (fun s => s.isVerified && s.isActive)
        = db.shops.countP (shopQueryPred (some ("true")))
    exact List.countP_congr (fun x _ => by
      simp [shopQueryPred, Bool.and_comm])
  · show db.ads.countP (fun a => a.active)
        = db.ads.countP (adQueryPred (some ("true")))
    exact List.countP_congr (fun x _ => by simp [adQueryPred])

/-- Claim C4: the category breakdown groups products by `type` with per-group
`count`/`pending`/`approved`/`rejected` and
`approvalRate = approved / max(count,1) * 100` rounded to one decimal, sorted
descending by `count`; on the three-product scenario it returns the Panel row
(count 2, rate 50.0) before the Battery row (count 1, rate 0.0). -/
theorem C4_category_breakdown :
    (categoryBreakdown scenarioProducts =
      [ { category := "Panel", count := 2, pending := 1, approved := 1, rejected := 0,
          approvalRate := 50 },
        { category := "Battery", count := 1, pending := 0, approved := 0, rejected := 1,
          approvalRate := 0 } ])
    ∧ (∀ ps : List Product, (categoryBreakdown ps).Pairwise (fun a b => b.count ≤ a.count))
    ∧ (∀ ps : List Product, ∀ r : CatRow, r ∈ categoryBreakdown ps →
        r.approvalRate = roundTo1 ((r.approved : ℚ) / (max r.count 1 : ℚ) * 100)) := by
  refine ⟨?_, ?_, ?_⟩
  · have h50 : roundTo1 50 = 50 := by
      rw [roundTo1_eq 50 500 (by norm_num) (by norm_num)]; norm_num
    have h0 : roundTo1 0 = 0 := by
      rw [roundTo1_eq 0 0 (by norm_num) (by norm_num)]; norm_num
    simp +decide [categoryBreakdown, categoryStats, productTypes, scenarioProducts,
      catRowFor, catCountGE, List.countP, List.countP.go, Bool.cond_eq_if]
    norm_num
    exact ⟨h50, h0⟩
  · intro ps
    have hs : (categoryStats ps).Pairwise catCountGE :=
      List.sorted_insertionSort catCountGE _
    exact hs.map _ (fun a b hab => hab)
  · intro ps r hr
    rcases List.mem_map.mp hr with ⟨r1, hr1, hEq⟩
    rcases List.mem_map.mp ((List.mem_insertionSort catCountGE).mp hr1) with ⟨t, _, hEq1⟩
    subst hEq1
    subst hEq
    rfl

/-- Witness for C4: the formula conjunct applied to the Panel row of the
scenario output. -/
theorem C4_category_breakdown_witness :
    ({ category := "Panel", count := 2, pending := 1, approved := 1, rejected := 0,
        approvalRate := 50 } : CatRow).approvalRate
      = roundTo1 ((1 : ℚ) / (max 2 1 : ℚ) * 100) := by
  have h := C4_category_breakdown
  exact h.2.2 scenarioProducts _ (by rw [h.1]; exact List.mem_cons_self _ _)

/-- Claim C5: the overall rates are the rounded `approved/total*100` and
`rejected/total*100` when products exist, and both are `0` when no products
exist — the division branch is guarded by `totalProducts > 0`, so an empty
collection yields `0`/`0` with no division. -/
theorem C5_rate_zero_guard (db : Db) :
    (totalProductsCount db = 0 → approvalRate db = 0 ∧ rejectionRate db = 0)
    ∧ (0 < totalProductsCount db →
        approvalRate db
            = roundTo1 ((approvedProductsCount db : ℚ) / (totalProductsCount db : ℚ) * 100)
        ∧ rejectionRate db
            = roundTo1 ((rejectedProductsCount db : ℚ) / (totalProductsCount db : ℚ) * 100)) := by
  constructor
  · intro h0
    rw [approvalRate, rejectionRate, h0]
    norm_num
  · intro hpos
    rw [approvalRate, rejectionRate, if_pos hpos, if_pos hpos,
      approvalRateExact, rejectionRateExact]
    exact ⟨rfl, rfl⟩

/-- Witness for C5: the empty database yields both rates `0`. -/
theorem C5_rate_zero_guard_witness :
    approvalRate dbEmpty = 0 ∧ rejectionRate dbEmpty = 0 :=
  (C5_rate_zero_guard dbEmpty).1 rfl

/-- Claim C6 fails on the code: with 1 approved and 15 rejected products the
exact rates 6.25 and 93.75 both round up (ties away from zero), giving
6.3 + 93.8 = 100.1 > 100. -/
theorem C6_counterexample_rate_sum :
    ¬ (approvalRate db16 + rejectionRate db16 ≤ 100) := by
  have ht : totalProductsCount db16 = 16 := by decide
  have ha : approvedProductsCount db16 = 1 := by decide
  have hr : rejectedProductsCount db16 = 15 := by decide
  have hae : approvalRateExact db16 = 25 / 4 := by
    rw [approvalRateExact, ht, ha]; norm_num
  have hre : rejectionRateExact db16 = 375 / 4 := by
    rw [rejectionRateExact, ht, hr]; norm_num
  rw [not_le, approvalRate, rejectionRate, ht, hae, hre,
    if_pos (by norm_num : (0 : ℕ) < 16), if_pos (by norm_num : (0 : ℕ) < 16),
    roundTo1_eq (25 / 4) 63 (by norm_num) (by norm_num),
    roundTo1_eq (375 / 4) 938 (by norm_num) (by norm_num)]
  norm_num

/-- Claim C6 amended: the un-rounded rates sum to at most 100, and reach 100
only when no product is pending; each rounding step adds at most 0.05, so the
rounded rates the code reports sum to at most 100.1 (a bound the
counterexample attains). -/
theorem C6_amended_rate_sum (db : Db) :
    (approvalRateExact db + rejectionRateExact db ≤ 100)
    ∧ (approvalRateExact db + rejectionRateExact db = 100 →
        db.products.countP (fun p => p.status == PStatus.pending) = 0)
    ∧ (approvalRate db + rejectionRate db ≤ 100 + 1 / 10) := by
  have hpart := statusPartition db.products
  rcases Nat.eq_zero_or_pos (totalProductsCount db) with h0 | hpos
  · have hlen : db.products.length = 0 := h0
    have hpend : db.products.countP (fun p => p.status == PStatus.pending) = 0 := by
      have := List.countP_le_length (fun p => p.status == PStatus.pending) (l := db.products)
      omega
    have haE : approvalRateExact db = 0 := by
      have ha0 : approvedProductsCount db = 0 := by
        have h1 : approvedProductsCount db
            = db.products.countP (fun p => p.status == PStatus.approved) := rfl
        have := List.countP_le_length (fun p => p.status == PStatus.approved) (l := db.products)
        omega
      rw [approvalRateExact, ha0, h0]
      norm_num
    have hrE : rejectionRateExact db = 0 := by
      have hr0 : rejectedProductsCount db = 0 := by
        have h1 : rejectedProductsCount db
            = db.products.countP (fun p => p.status == PStatus.rejected) := rfl
        have := List.countP_le_length (fun p => p.status == PStatus.rejected) (l := db.products)
        omega
      rw [rejectionRateExact, hr0, h0]
      norm_num
    refine ⟨by rw [haE, hrE]; norm_num, fun _ => hpend, ?_⟩
    rw [approvalRate, rejectionRate, h0]
    norm_num
  · have htQ : (0 : ℚ) < (totalProductsCount db : ℚ) := by exact_mod_cast hpos
    have htne : ((totalProductsCount db : ℚ)) ≠ 0 := ne_of_gt htQ
    have hle : approvedProductsCount db + rejectedProductsCount db ≤ totalProductsCount db := by
      have h1 : approvedProductsCount db
          = db.products.countP (fun p => p.status == PStatus.approved) := rfl
      have h2 : rejectedProductsCount db
          = db.products.countP (fun p => p.status == PStatus.rejected) := rfl
      have h3 : totalProductsCount db = db.products.length := rfl
      omega
    have hsum : approvalRateExact db + rejectionRateExact db
        = ((approvedProductsCount db + rejectedProductsCount db : ℕ) : ℚ)
            / (totalProductsCount db : ℚ) * 100 := by
      rw [approvalRateExact, rejectionRateExact]
      push_cast
      ring
    have hb : ((approvedProductsCount db + rejectedProductsCount db : ℕ) : ℚ)
        / (totalProductsCount db : ℚ) * 100 ≤ 100 := by
      rw [div_mul_eq_mul_div, div_le_iff₀ htQ]
      have hcast : ((approvedProductsCount db + rejectedProductsCount db : ℕ) : ℚ)
          ≤ (totalProductsCount db : ℚ) := by exact_mod_cast hle
      linarith
    refine ⟨by rw [hsum]; exact hb, ?_, ?_⟩
    · intro h
      rw [hsum] at h
      have heq : ((approvedProductsCount db + rejectedProductsCount db : ℕ) : ℚ)
          = (totalProductsCount db : ℚ) := by
        push_cast
        field_simp at h
        linarith
      have hnat : approvedProductsCount db + rejectedProductsCount db
          = totalProductsCount db := by exact_mod_cast heq
      have h1 : approvedProductsCount db
          = db.products.countP (fun p => p.status == PStatus.approved) := rfl
      have h2 : rejectedProductsCount db
          = db.products.countP (fun p => p.status == PStatus.rejected) := rfl
      have h3 : totalProductsCount db = db.products.length := rfl
      omega
    · have hA : approvalRate db = roundTo1 (approvalRateExact db) := by
        rw [approvalRate, if_pos hpos]
      have hR : rejectionRate db = roundTo1 (rejectionRateExact db) := by
        rw [rejectionRate, if_pos hpos]
      have b1 := roundTo1_le (approvalRateExact db)
      have b2 := roundTo1_le (rejectionRateExact db)
      have hexact : approvalRateExact db + rejectionRateExact db ≤ 100 := by
        rw [hsum]
        exact hb
      rw [hA, hR]
      linarith

/-- Witness for the amended C6: two products (one approved, one rejected)
make the exact rates sum to exactly 100, forcing the pending count to 0. -/
theorem C6_amended_rate_sum_witness :
    dbAR.products.countP (fun p => p.status == PStatus.pending) = 0 :=
  (C6_amended_rate_sum dbAR).2.1 (by
    have ht : totalProductsCount dbAR = 2 := by decide
    have ha : approvedProductsCount dbAR = 1 := by decide
    have hr : rejectedProductsCount dbAR = 1 := by decide
    rw [approvalRateExact, rejectionRateExact, ht, ha, hr]
    norm_num)

/-- Claim C7: the `verified`/`active` parameters of `getEngineersList`,
`getShopsList` and `getAdsList` are tri-state.  Absent: no filter on the flag
(no document excluded by it — for engineers and ads the queried sequence is a
permutation of the whole collection; for shops only the `isActive` base
filter remains).  The string `true`: only documents with the flag `true` are
returned and counted (for shops, on top of the `isActive` base).  Any other
string: the flag is compared against `false`. -/
theorem C7_tristate_boolean_filters :
    ((∀ db : Db, ∀ q : ListQuery,
        (engineersListData db q none).pagination.totalItems = db.engineers.length
        ∧ (sortedEngineers db q none).Perm db.engineers
        ∧ (adsListData db q none).pagination.totalItems = db.ads.length
        ∧ (sortedAds db q none).Perm db.ads
        ∧ (shopsListData db q none).pagination.totalItems
            = db.shops.countP (fun s => s.isActive))
      ∧ (∀ db : Db, ∀ q : ListQuery,
          (∀ e : Engineer, e ∈ (engineersListData db q (some ("true"))).items →
            e.isVerified = true)
          ∧ (engineersListData db q (some ("true"))).pagination.totalItems
              = db.engineers.countP (fun e => e.isVerified)
          ∧ (∀ a : Ad, a ∈ (adsListData db q (some ("true"))).items → a.active = true)
          ∧ (adsListData db q (some ("true"))).pagination.totalItems
              = db.ads.countP (fun a => a.active)
          ∧ (∀ sh : Shop, sh ∈ (shopsListData db q (some ("true"))).items →
              sh.isVerified = true)
          ∧ (shopsListData db q (some ("true"))).pagination.totalItems
              = db.shops.countP (fun sh => sh.isActive && sh.isVerified))
      ∧ (∀ s : String, s ≠ "true" → ∀ db : Db, ∀ q : ListQuery,
          (∀ e : Engineer, e ∈ (engineersListData db q (some s)).items →
            e.isVerified = false)
          ∧ (engineersListData db q (some s)).pagination.totalItems
              = db.engineers.countP (fun e => !e.isVerified)
          ∧ (∀ a : Ad, a ∈ (adsListData db q (some s)).items → a.active = false)
          ∧ (adsListData db q (some s)).pagination.totalItems
              = db.ads.countP (fun a => !a.active)
          ∧ (∀ sh : Shop, sh ∈ (shopsListData db q (some s)).items →
              sh.isVerified = false)
          ∧ (shopsListData db q (some s)).pagination.totalItems
              = db.shops.countP (fun sh => sh.isActive && !sh.isVerified))) := by
  refine ⟨fun db q => ⟨?_, ?_, ?_, ?_, ?_⟩, fun db q => ⟨?_, ?_, ?_, ?_, ?_, ?_⟩,
    fun s hs db q => ⟨?_, ?_, ?_, ?_, ?_, ?_⟩⟩
  · show db.engineers.countP (engineerQueryPred none) = db.engineers.length
    rw [List.countP_congr (q := fun _ => true) (fun x _ => by simp [engineerQueryPred]),
      countP_true_eq_length]
  · have hfeq : db.engineers.filter (engineerQueryPred none) = db.engineers := by
      rw [List.filter_congr (q := fun _ => true) (fun x _ => by simp [engineerQueryPred]),
        List.filter_true]
    show (sortDocs engineerFieldKey (listerSortSpec q.sortBy q.sortOrder)
        (db.engineers.filter (engineerQueryPred none))).Perm db.engineers
    rw [hfeq]
    exact sortDocs_perm _ _ _
  · show db.ads.countP (adQueryPred none) = db.ads.length
    rw [List.countP_congr (q := fun _ => true) (fun x _ => by simp [adQueryPred]),
      countP_true_eq_length]
  · have hfeq : db.ads.filter (adQueryPred none) = db.ads := by
      rw [List.filter_congr (q := fun _ => true) (fun x _ => by simp [adQueryPred]),
        List.filter_true]
    show (sortDocs adFieldKey (listerSortSpec q.sortBy q.sortOrder)
        (db.ads.filter (adQueryPred none))).Perm db.ads
    rw [hfeq]
    exact sortDocs_perm _ _ _
  · show db.shops.countP (shopQueryPred none) = db.shops.countP (fun s => s.isActive)
    exact List.countP_congr (fun x _ => by simp [shopQueryPred])
  · intro e he
    have h := mem_slice_filter engineerFieldKey (listerSortSpec q.sortBy q.sortOrder)
      (engineerQueryPred (some ("true"))) db.engineers ((q.page - 1) * q.limit) q.limit e he
    simpa [engineerQueryPred] using h
  · show db.engineers.countP (engineerQueryPred (some ("true")))
        = db.engineers.countP (fun e => e.isVerified)
    exact List.countP_congr (fun x _ => by simp [engineerQueryPred])
  · intro a ha
    have h := mem_slice_filter adFieldKey (listerSortSpec q.sortBy q.sortOrder)
      (adQueryPred (some ("true"))) db.ads ((q.page - 1) * q.limit) q.limit a ha
    simpa [adQueryPred] using h
  · show db.ads.countP (adQueryPred (some ("true"))) = db.ads.countP (fun a => a.active)
    exact List.countP_congr (fun x _ => by simp [adQueryPred])
  · intro sh hsh
    have h := mem_slice_filter shopFieldKey (listerSortSpec q.sortBy q.sortOrder)
      (shopQueryPred (some ("true"))) db.shops ((q.page - 1) * q.limit) q.limit sh hsh
    rw [shopQueryPred.eq_def] at h
    simpa using (Bool.and_eq_true_iff.mp h).2
  · show db.shops.countP (shopQueryPred (some ("true")))
        = db.shops.countP (fun sh => sh.isActive && sh.isVerified)
    exact List.countP_congr (fun x _ => by simp [shopQueryPred])
  · intro e he
    have hfalse : (s == "true") = false := beq_eq_false_iff_ne.mpr hs
    have h := mem_slice_filter engineerFieldKey (listerSortSpec q.sortBy q.sortOrder)
      (engineerQueryPred (some s)) db.engineers ((q.page - 1) * q.limit) q.limit e he
    simpa [engineerQueryPred, hfalse] using h
  · have hfalse : (s == "true") = false := beq_eq_false_iff_ne.mpr hs
    show db.engineers.countP (engineerQueryPred (some s))
        = db.engineers.countP (fun e => !e.isVerified)
    exact List.countP_congr (fun x _ => by
      simp [engineerQueryPred, hfalse])
  · intro a ha
    have hfalse : (s == "true") = false := beq_eq_false_iff_ne.mpr hs
    have h := mem_slice_filter adFieldKey (listerSortSpec q.sortBy q.sortOrder)
      (adQueryPred (some s)) db.ads ((q.page - 1) * q.limit) q.limit a ha
    simpa [adQueryPred, hfalse] using h
  · have hfalse : (s == "true") = false := beq_eq_false_iff_ne.mpr hs
    show db.ads.countP (adQueryPred (some s)) = db.ads.countP (fun a => !a.active)
    exact List.countP_congr (fun x _ => by simp [adQueryPred, hfalse])
  · intro sh hsh
    have hfalse : (s == "true") = false := beq_eq_false_iff_ne.mpr hs
    have h := mem_slice_filter shopFieldKey (listerSortSpec q.sortBy q.sortOrder)
      (shopQueryPred (some s)) db.shops ((q.page - 1) * q.limit) q.limit sh hsh
    rw [shopQueryPred.eq_def] at h
    have h2 := (Bool.and_eq_true_iff.mp h).2
    simpa [hfalse] using h2
  · have hfalse : (s == "true") = false := beq_eq_false_iff_ne.mpr hs
    show db.shops.countP (shopQueryPred (some s))
        = db.shops.countP (fun sh => sh.isActive && !sh.isVerified)
    exact List.countP_congr (fun x _ => by simp [shopQueryPred, hfalse])

/-- Witness for C7: on a database with one verified engineer, the
`verified=true` lister returns that engineer, which is verified. -/
theorem C7_tristate_boolean_filters_witness :
    ({ isVerified := true, isActive := true, createdAt := 0 } : Engineer).isVerified = true :=
  (C7_tristate_boolean_filters.2.1 dbE {}).1
    { isVerified := true, isActive := true, createdAt := 0 } (by decide)

/-- Claim C8: every endpoint catches any exception at its outermost level and
responds 500 with `{status: "error", message: <that endpoint's fixed retrieval
message>, error: <the exception's message>}` and no data; a successful run
responds 200 with `status: "success"` and the computed payload. -/
theorem C8_outermost_error_envelope :
    (∀ e : String,
      getAdminDashboardStats (Except.error e)
          = { httpStatus := 500, status := "error"
              message := "Error retrieving statistics", data := none, error := some e }
        ∧ getDashboardCards (Except.error e)
          = { httpStatus := 500, status := "error"
              message := "Error retrieving dashboard cards data", data := none, error := some e }
        ∧ getDashboardCounts (Except.error e)
          = { httpStatus := 500, status := "error"
              message := "Error retrieving dashboard counts", data := none, error := some e }
        ∧ getSimpleCounts (Except.error e)
          = { httpStatus := 500, status := "error"
              message := "Error retrieving counts", data := none, error := some e }
        ∧ (∀ q : ListQuery, ∀ verified active : Option String,
            getPendingApprovals (Except.error e) q
              = { httpStatus := 500, status := "error"
                  message := "Error retrieving pending approvals", data := none
                  error := some e }
            ∧ getEngineersList (Except.error e) q verified
              = { httpStatus := 500, status := "error"
                  message := "Error retrieving engineers list", data := none, error := some e }
            ∧ getShopsList (Except.error e) q verified
              = { httpStatus := 500, status := "error"
                  message := "Error retrieving shops list", data := none, error := some e }
            ∧ getAdsList (Except.error e) q active
              = { httpStatus := 500, status := "error"
                  message := "Error retrieving ads list", data := none, error := some e }))
    ∧ (∀ db : Db,
      getAdminDashboardStats (Except.ok db)
          = { httpStatus := 200, status := "success"
              message := "Dashboard statistics retrieved successfully"
              data := some (dashboardStatsData db), error := none }
        ∧ getDashboardCards (Except.ok db)
          = { httpStatus := 200, status := "success"
              message := "Dashboard cards data retrieved successfully"
              data := some (dashboardCardsData db), error := none }
        ∧ getDashboardCounts (Except.ok db)
          = { httpStatus := 200, status := "success"
              message := "Dashboard counts retrieved successfully"
              data := some (dashboardCardsData db), error := none }
        ∧ getSimpleCounts (Except.ok db)
          = { httpStatus := 200, status := "success"
              message := "Counts retrieved successfully"
              data := some (simpleCountsData db), error := none }
        ∧ (∀ q : ListQuery, ∀ verified active : Option String,
            getPendingApprovals (Except.ok db) q
              = { httpStatus := 200, status := "success"
                  message := "Pending approvals retrieved successfully"
                  data := some (pendingApprovalsData db q), error := none }
            ∧ getEngineersList (Except.ok db) q verified
              = { httpStatus := 200, status := "success"
                  message := "Engineers list retrieved successfully"
                  data := some (engineersListData db q verified), error := none }
            ∧ getShopsList (Except.ok db) q verified
              = { httpStatus := 200, status := "success"
                  message := "Shops list retrieved successfully"
                  data := some (shopsListData db q verified), error := none }
            ∧ getAdsList (Except.ok db) q active
              = { httpStatus := 200, status := "success"
                  message := "Ads list retrieved successfully"
                  data := some (adsListData db q active), error := none })) :=
  ⟨fun _ => ⟨rfl, rfl, rfl, rfl, fun _ _ _ => ⟨rfl, rfl, rfl, rfl⟩⟩,
   fun _ => ⟨rfl, rfl, rfl, rfl, fun _ _ _ => ⟨rfl, rfl, rfl, rfl⟩⟩⟩

/-- Claim C9 is the documented behavior, but the code omits the whitelist:
`sort[sortBy] = parseInt(sortOrder)` installs any requested field as the sort
key, so a `sortBy` value outside the route's documented enum (such as
`status` for `/pending-approvals` or `isVerified` for `/engineers`) is still
applied as the sort key. -/
theorem C9_sortBy_whitelist_not_enforced :
    ((listerSortSpec ("status") (-1)).field = "status"
      ∧ ("status") ∉ pendingSortWhitelist)
    ∧ ((listerSortSpec ("isVerified") (-1)).field = "isVerified"
      ∧ ("isVerified") ∉ engineersSortWhitelist)
    ∧ (∀ sortBy : String, ∀ sortOrder : Int,
        (listerSortSpec sortBy sortOrder).field = sortBy
        ∧ (listerSortSpec sortBy sortOrder).order = sortOrder) :=
  ⟨⟨rfl, by decide⟩, ⟨rfl, by decide⟩, fun _ _ => ⟨rfl, rfl⟩⟩

/-- Claim C10: `getShopsList` alone carries the implicit base filter
`isActive: true` for every parameter combination — every returned shop is
active and `totalItems` counts only active shops — while the other three
listers count exactly their stated filter (all engineers / all ads with the
parameter absent, pending products). -/
theorem C10_shops_implicit_isActive_filter :
    ((∀ db : Db, ∀ q : ListQuery, ∀ verified : Option String, ∀ s : Shop,
        s ∈ (shopsListData db q verified).items → s.isActive = true)
      ∧ (∀ db : Db, ∀ q : ListQuery,
          (shopsListData db q none).pagination.totalItems
            = db.shops.countP (fun s => s.isActive))
      ∧ (∀ db : Db, ∀ q : ListQuery, ∀ verified : Option String,
          (shopsListData db q verified).pagination.totalItems
            ≤ db.shops.countP (fun s => s.isActive))
      ∧ (∀ db : Db, ∀ q : ListQuery,
          (engineersListData db q none).pagination.totalItems = db.engineers.length
          ∧ (adsListData db q none).pagination.totalItems = db.ads.length
          ∧ (pendingApprovalsData db q).pagination.totalItems
              = db.products.countP (fun p => p.status == PStatus.pending))) := by
  refine ⟨?_, ?_, ?_, fun db q => ⟨?_, ?_, rfl⟩⟩
  · intro db q verified s hs
    have h := mem_slice_filter shopFieldKey (listerSortSpec q.sortBy q.sortOrder)
      (shopQueryPred verified) db.shops ((q.page - 1) * q.limit) q.limit s hs
    rw [shopQueryPred.eq_def] at h
    exact (Bool.and_eq_true_iff.mp h).1
  · intro db q
    show db.shops.countP (shopQueryPred none) = db.shops.countP (fun s => s.isActive)
    exact List.countP_congr (fun x _ => by simp [shopQueryPred])
  · intro db q verified
    show db.shops.countP (shopQueryPred verified) ≤ db.shops.countP (fun s => s.isActive)
    exact List.countP_mono_left (fun x _ hx => by
      rw [shopQueryPred.eq_def] at hx
      exact (Bool.and_eq_true_iff.mp hx).1)
  · show db.engineers.countP (engineerQueryPred none) = db.engineers.length
    rw [List.countP_congr (q := fun _ => true) (fun x _ => by simp [engineerQueryPred]),
      countP_true_eq_length]
  · show db.ads.countP (adQueryPred none) = db.ads.length
    rw [List.countP_congr (q := fun _ => true) (fun x _ => by simp [adQueryPred]),
      countP_true_eq_length]

/-- Witness for C10: the single shop returned for a one-active-shop database
is active. -/
theorem C10_shops_implicit_isActive_filter_witness :
    ({ isVerified := true, isActive := true, createdAt := 0 } : Shop).isActive = true :=
  C10_shops_implicit_isActive_filter.1 dbS {} (some ("true"))
    { isVerified := true, isActive := true, createdAt := 0 } (by decide)

end QafzhAdmin
